import Mathlib

/-!
Shallow embedding of the load-generation core of `ethical_load_tester_pro`
(files `config.py`, `core.py`, `real_test.py`, `protocols.py`, `logger.py`),
with theorems settling the specification claims about it.

Strings are modelled as `List Char` so every operation is structurally
recursive and kernel-computable; the Python string methods used by the code
(`strip`, `lower`, `upper`, `startswith`, `+`) are embedded below with their
Python semantics on the ASCII data the program handles.
-/

namespace ELTP

/-- Model of Python strings. -/
abbrev Str := List Char

/-- Python `str.lower()` for ASCII characters. -/
def charLower (c : Char) : Char :=
  if 'A' ≤ c ∧ c ≤ 'Z' then Char.ofNat (c.toNat + 32) else c

/-- Python `str.upper()` for ASCII characters. -/
def charUpper (c : Char) : Char :=
  if 'a' ≤ c ∧ c ≤ 'z' then Char.ofNat (c.toNat - 32) else c

/-- Python `s.lower()`. -/
def strLower (s : Str) : Str := s.map charLower

/-- Python `s.upper()`. -/
def strUpper (s : Str) : Str := s.map charUpper

/-- Python whitespace as stripped by `str.strip()`. -/
def isSpaceChar (c : Char) : Bool :=
  c = ' ' || c = '\t' || c = '\n' || c = '\r'

/-- Python `s.strip()`. -/
def strTrim (s : Str) : Str :=
  ((s.dropWhile isSpaceChar).reverse.dropWhile isSpaceChar).reverse

/-- Python `s.startswith(p)`. -/
def strStartsWith : Str → Str → Bool
  | _, [] => true
  | [], _ :: _ => false
  | c :: cs, d :: ds => c = d && strStartsWith cs ds

/-! ## Configuration (`config.py`, `TestConfig.__post_init__`) -/

/-- Raw constructor arguments of `TestConfig` before `__post_init__` runs. -/
structure RawConfig where
  target : Str
  port : Int
  protocol : Str
  duration : Int
  rate : Int
deriving Repr, DecidableEq

/-- A `TestConfig` after validation/normalization by `__post_init__`. -/
structure TestConfig where
  target : Str
  port : Int
  protocol : Str
  duration : Int
  rate : Int
deriving Repr, DecidableEq

/-- The supported protocol names, compared after upper-casing
(`config.py` line 22). -/
def supportedProtocols : List Str :=
  ["HTTP".toList, "HTTPS".toList, "TCP".toList, "UDP".toList]

/-- Port remapping of `config.py` lines 26-27: port 80 with protocol HTTPS
becomes 443; every other combination is kept. -/
def effectivePort (port : Int) (protocol : Str) : Int :=
  if port = 80 ∧ strUpper protocol = "HTTPS".toList then 443 else port

/-- Whether a target string already carries a scheme
(`config.py` line 40: `startswith(('http://', 'https://'))`). -/
def hasScheme (t : Str) : Bool :=
  strStartsWith t "http://".toList || strStartsWith t "https://".toList

/-- The scheme prepended when missing (`config.py` line 41). -/
def schemeFor (protocol : Str) : Str :=
  if strUpper protocol = "HTTPS".toList then "https://".toList else "http://".toList

/-- Target normalization of `__post_init__` (`config.py` lines 19 and
39-42): `target.strip().lower()`, then a scheme prepended when missing. -/
def normTarget (protocol target : Str) : Str :=
  let t := strLower (strTrim target)
  if hasScheme t then t else schemeFor protocol ++ t

/-- Embedding of `TestConfig.__post_init__` (`config.py` lines 13-42):
validates target, protocol, port range, duration and rate in that order,
remaps port 80→443 for HTTPS before the range check, lower-cases and strips
the target, and prepends a scheme when the target has none. A raised
`ValueError` is the `Except.error` case. -/
def postInit (c : RawConfig) : Except Str TestConfig :=
  if c.target = [] then
    .error "Target cannot be empty".toList
  else if supportedProtocols.contains (strUpper c.protocol) = false then
    .error ("Unsupported protocol: ".toList ++ c.protocol)
  else if ¬ (0 < effectivePort c.port c.protocol ∧
      effectivePort c.port c.protocol ≤ 65535) then
    .error "Invalid port number".toList
  else if c.duration ≤ 0 then
    .error "Duration must be positive".toList
  else if c.rate ≤ 0 then
    .error "Rate must be positive".toList
  else
    .ok ⟨normTarget c.protocol c.target, effectivePort c.port c.protocol,
      c.protocol, c.duration, c.rate⟩

/-- The validity predicate matching the checks of `__post_init__`. -/
def validRaw (c : RawConfig) : Prop :=
  c.target ≠ [] ∧
  supportedProtocols.contains (strUpper c.protocol) = true ∧
  0 < effectivePort c.port c.protocol ∧
  effectivePort c.port c.protocol ≤ 65535 ∧
  0 < c.duration ∧
  0 < c.rate

instance (c : RawConfig) : Decidable (validRaw c) := by
  unfold validRaw; infer_instance

/-- The target string handed to the raw TCP/UDP probes: `core.py`
`_send_protocol_request` passes `self.config.target` verbatim to
`TCPProtocol.send_request` / `UDPProtocol.send_request` (`protocols.py`). -/
def probeHost (cfg : TestConfig) : Str := cfg.target

/-! ## Adaptive rate control (`core.py`, `LoadTester.generate_load`, lines 201-240) -/

/-- The backpressure state threaded through the tick loop of
`LoadTester.generate_load`: `consecutive_429s` and `rate_limit_delay`.
The delay is exact rational arithmetic standing for the Python float. -/
structure RateState where
  consecutive429s : Nat
  rateLimitDelay : ℚ
deriving Repr, DecidableEq

/-- Initial values set at loop entry (`core.py` lines 202-203):
`rate_limit_delay = 1.0`, `consecutive_429s = 0`. -/
def initRateState : RateState := ⟨0, 1⟩

/-- Line 210 of `core.py`: `adjusted_rate = max(1, self.config.rate // (2 ** consecutive_429s))`.
Python `//` on non-negative ints is `Nat` floor division. -/
def adjustedRate (rate : Nat) (s : RateState) : Nat :=
  max 1 (rate / 2 ^ s.consecutive429s)

/-- Lines 222-229 of `core.py`: per-batch backpressure update. `rateLimited` is
the number of results in the batch whose status was 429.
If positive: `consecutive_429s = min(consecutive_429s + 1, 5)` and
`rate_limit_delay *= 1.5`. Otherwise: `consecutive_429s = max(0, consecutive_429s - 1)`
and `rate_limit_delay = max(1.0, rate_limit_delay * 0.8)`. -/
def onBatchResult (rateLimited : Nat) (s : RateState) : RateState :=
  if rateLimited > 0 then
    ⟨min (s.consecutive429s + 1) 5, s.rateLimitDelay * (3 / 2)⟩
  else
    ⟨s.consecutive429s - 1, max 1 (s.rateLimitDelay * (4 / 5))⟩

/-- The state after `n` consecutive rate-limited batches starting from loop
entry: every batch reports at least one 429. -/
def stressedState : Nat → RateState
  | 0 => initRateState
  | n + 1 => onBatchResult 1 (stressedState n)

/-! ## Per-tick dispatch count (`real_test.py`, `RealLoadTest.generate_load`,
lines 96-120) -/

/-- Python `int()` truncation toward zero of a rational (`int(elapsed * rate)`
in `generate_load`). -/
def pyInt (q : ℚ) : Int := Int.tdiv q.num q.den

/-- Lines 103-110 of `real_test.py`: the number of requests dispatched in one
tick. `target_requests = int(elapsed * target_rate)`;
`requests_needed = max(1, min(target_requests - requests_sent, target_rate))`. -/
def requestsNeeded (elapsed : ℚ) (targetRate : Int) (requestsSent : Int) : Int :=
  max 1 (min (pyInt (elapsed * targetRate) - requestsSent) targetRate)

/-- The per-tick dispatch count the specification's `requests_due` contract
describes, modelled from the spec's words:
`max(0, floor(elapsed * effective_rate) - requests_already_sent)`, clamped
to at most `target_rate` (in `real_test.py` the effective rate is the target
rate). Kept separate from `requestsNeeded` to compare code against spec. -/
def specRequestsDue (elapsed : ℚ) (targetRate : Int) (requestsSent : Int) : Int :=
  min (max 0 (⌊elapsed * targetRate⌋ - requestsSent)) targetRate

/-! ## Outcome recording (`core.py` `_send_http_request` lines 93-155,
`real_test.py` `_send_request` lines 137-167, `logger.py`) -/

/-- What one HTTP probe observes, abstracting the network and the clock:
either a response (with status, the wall-clock time elapsed when the headers
arrived, and the larger time elapsed once the body was fully read), or a
transport-level exception carrying its message. -/
inductive ProbeEvent
  | response (status : Nat) (headersTime bodyTime : ℚ)
  | transportError (msg : Str) (failTime : ℚ)
deriving Repr, DecidableEq

/-- The value a probe coroutine returns: `(status, response_time)` on a
response, `(None, elapsed)` on a caught exception. -/
structure ProbeReturn where
  status : Option Nat
  elapsed : ℚ
deriving Repr, DecidableEq

/-- The stats dict of `LoadTester` (`core.py` lines 28-33) together with the
logger's error counter and error log (`logger.py`): `requests_sent`,
`success_count`, `total_response_time`, `errors_count`, logged messages. -/
structure CoreStats where
  requestsSent : Nat
  successCount : Nat
  totalResponseTime : ℚ
  errorsCount : Nat
  errorLog : List Str
deriving Repr, DecidableEq

/-- Fresh stats at construction (`core.py` lines 28-33, `logger.py` line 11). -/
def initCoreStats : CoreStats := ⟨0, 0, 0, 0, []⟩

/-- Embedding of `LoadTester._send_http_request` (`core.py` lines 93-155),
minus the callback (modelled separately below). On a response the body is
read first (`await response.read()`), so the recorded `response_time` is the
event's `bodyTime`; then `requests_sent += 1`, `success_count += 1` iff
`status < 400`, `total_response_time += response_time`. On any exception the
error is logged (`logger.log_error` increments `errors_count`),
`requests_sent += 1`, and `(None, elapsed)` is returned — the exception never
escapes the coroutine. -/
def sendHttpRequest (ev : ProbeEvent) (s : CoreStats) : CoreStats × ProbeReturn :=
  match ev with
  | .response status _ bodyTime =>
      (⟨s.requestsSent + 1,
        s.successCount + (if status < 400 then 1 else 0),
        s.totalResponseTime + bodyTime,
        s.errorsCount,
        s.errorLog⟩,
       ⟨some status, bodyTime⟩)
  | .transportError msg failTime =>
      (⟨s.requestsSent + 1,
        s.successCount,
        s.totalResponseTime,
        s.errorsCount + 1,
        ("Request error: ".toList ++ msg) :: s.errorLog⟩,
       ⟨none, failTime⟩)

/-- The stats dict of `RealLoadTest` (`real_test.py` lines 25-37), the
counter fields only. -/
structure RealStats where
  requestsSent : Nat
  successCount : Nat
  errorCount : Nat
  totalResponseTime : ℚ
deriving Repr, DecidableEq

/-- Fresh stats at construction (`real_test.py` lines 25-37). -/
def initRealStats : RealStats := ⟨0, 0, 0, 0⟩

/-- Embedding of `RealLoadTest._send_request` (`real_test.py` lines 137-167):
on a response, `requests_sent += 1`, `success_count += 1` iff `status < 400`,
`total_response_time += response_time`; on an exception only
`error_count += 1`. -/
def sendRequest (ev : ProbeEvent) (s : RealStats) : RealStats :=
  match ev with
  | .response status _ bodyTime =>
      ⟨s.requestsSent + 1,
       s.successCount + (if status < 400 then 1 else 0),
       s.errorCount,
       s.totalResponseTime + bodyTime⟩
  | .transportError _ _ =>
      ⟨s.requestsSent, s.successCount, s.errorCount + 1, s.totalResponseTime⟩

/-- A whole run's worth of recorded outcomes, in arrival order. -/
def recordAllCore (evs : List ProbeEvent) (s : CoreStats) : CoreStats :=
  evs.foldl (fun st ev => (sendHttpRequest ev st).1) s

/-- A whole run's worth of `RealLoadTest` recordings, in arrival order. -/
def recordAllReal (evs : List ProbeEvent) (s : RealStats) : RealStats :=
  evs.foldl (fun st ev => sendRequest ev st) s

/-! ## Observer callback at the probe call site (`core.py` lines 116-130) -/

/-- How the registered callback behaves when invoked: absent, returning
normally, or raising. -/
inductive CbBehavior
  | absent
  | ok
  | raises (msg : Str)
deriving Repr, DecidableEq

/-- The callback invocation inside `_send_http_request` (`core.py` lines
116-130 and 139-153): wrapped in its own `try/except` which calls
`logger.log_error(f"Callback error: ...")` on an exception, so a raising
callback only adds an error-log entry and control continues. -/
def applyCallback (cb : CbBehavior) (s : CoreStats) : CoreStats :=
  match cb with
  | .raises msg =>
      { s with errorsCount := s.errorsCount + 1,
               errorLog := ("Callback error: ".toList ++ msg) :: s.errorLog }
  | _ => s

/-- Embedding of `_send_http_request` including its callback invocation: stats update
first, then the guarded callback call, then the normal return. -/
def sendHttpRequestCb (ev : ProbeEvent) (cb : CbBehavior) (s : CoreStats) :
    CoreStats × ProbeReturn :=
  let (s', r) := sendHttpRequest ev s
  (applyCallback cb s', r)

/-! ## The `RealLoadTest.start` loop (`real_test.py` lines 44-94) -/

/-- What happens during one iteration of the `while` loop in
`RealLoadTest.start`: a tick whose batch records the given outcomes and whose
callback invocation (line 81, not guarded by any local `try`) returns
normally, the same with a raising callback, or an unexpected exception inside
the loop body. -/
inductive TickBehavior
  | tick (batch : List ProbeEvent)
  | tickCbRaises (batch : List ProbeEvent)
  | internalError
deriving Repr, DecidableEq

/-- How a run ended: the loop consumed all its ticks and saw
`elapsed >= ramp_up_time` (`test_completed`), or an exception escaped the
loop body into the `except` clause at `real_test.py` line 86. -/
inductive RunEnd
  | completed
  | stoppedByError
deriving Repr, DecidableEq

/-- Result of `RealLoadTest.start`: final counters, number of loop
iterations executed, how the loop ended, and the list of `progress` values
passed to the callback by the `finally` block (lines 88-94). -/
structure RealRunResult where
  stats : RealStats
  ticksExecuted : Nat
  runEnd : RunEnd
  finalEmissions : List Nat
deriving Repr, DecidableEq

/-- The `while` loop of `RealLoadTest.start`. A raising callback is only an
exception when a callback is registered (`if self.callback:` at line 80); the
exception propagates out of the loop body, so iteration stops there. An
exhausted tick list is the `elapsed >= self.ramp_up_time` exit. -/
def realStartLoop (hasCallback : Bool) :
    List TickBehavior → RealStats → Nat → RealStats × Nat × RunEnd
  | [], s, n => (s, n, .completed)
  | .tick batch :: rest, s, n =>
      realStartLoop hasCallback rest (recordAllReal batch s) (n + 1)
  | .tickCbRaises batch :: rest, s, n =>
      let s' := recordAllReal batch s
      if hasCallback then (s', n + 1, .stoppedByError)
      else realStartLoop hasCallback rest s' (n + 1)
  | .internalError :: _, s, n => (s, n + 1, .stoppedByError)

/-- End-to-end `RealLoadTest.start`: run the loop from fresh stats, then the
`finally` block sets `progress = 100` and, when a callback is registered,
invokes it exactly once with that final snapshot. -/
def realStart (hasCallback : Bool) (ticks : List TickBehavior) : RealRunResult :=
  let r := realStartLoop hasCallback ticks initRealStats 0
  ⟨r.1, r.2.1, r.2.2, if hasCallback then [100] else []⟩

/-! ## The `LoadTester` tick loop and `run` (`core.py` lines 187-257) -/

/-- Number of results in a batch that are `(429, t)` tuples
(`core.py` line 220). -/
def count429 (evs : List ProbeEvent) : Nat :=
  (evs.filter fun e =>
    match e with
    | .response 429 _ _ => true
    | _ => false).length

/-- One iteration of the `while` loop of `LoadTester.generate_load`: either a
normal tick whose `i`-th dispatched probe observes `probe i`, or an
unexpected exception in the loop body (caught by the `except` at line 242). -/
inductive CoreTickBehavior
  | tick (probe : Nat → ProbeEvent)
  | loopError

/-- The tick loop of `LoadTester.generate_load` (lines 205-240): each tick
dispatches `adjusted_rate` probes, records their outcomes, counts the 429s
among the batch and updates the backpressure state; an unexpected exception
ends the loop through the `except`/`finally` of lines 242-245. Returns the
final stats, the final rate state, and whether the loop ended without an
internal error. -/
def coreLoadLoop (cfgRate : Nat) :
    List CoreTickBehavior → CoreStats → RateState → CoreStats × RateState × Bool
  | [], s, rs => (s, rs, true)
  | .tick probe :: rest, s, rs =>
      let batch := (List.range (adjustedRate cfgRate rs)).map probe
      coreLoadLoop cfgRate rest (recordAllCore batch s) (onBatchResult (count429 batch) rs)
  | .loopError :: _, s, rs => (s, rs, false)

/-- Result of `LoadTester.run` (`core.py` lines 247-257): final stats, final
rate state, whether the loop ended cleanly, and whether `generate_report()`
ran. -/
structure CoreRunResult where
  stats : CoreStats
  rateState : RateState
  cleanLoopExit : Bool
  reportGenerated : Bool
deriving DecidableEq

/-- Embedding of `LoadTester.run`: `generate_load` absorbs every exception of
its loop (`try`/`except`/`finally`, lines 189-245), then `run` unconditionally
calls `generate_report()` (line 257). -/
def coreRun (cfgRate : Nat) (ticks : List CoreTickBehavior) : CoreRunResult :=
  let r := coreLoadLoop cfgRate ticks initCoreStats initRateState
  ⟨r.1, r.2.1, r.2.2, true⟩

/-- Rate states reachable by the `generate_load` loop: the initial state
followed by any sequence of per-batch updates. -/
inductive ReachableRate : RateState → Prop
  | init : ReachableRate initRateState
  | step (rl : Nat) {s : RateState} : ReachableRate s → ReachableRate (onBatchResult rl s)


/-! ## Helper lemmas -/

/-- Python `int()` agrees with the floor on non-negative rationals. -/
theorem pyInt_eq_floor (q : ℚ) (hq : 0 ≤ q) : pyInt q = ⌊q⌋ := by
  rw [pyInt, Rat.floor_def, Int.tdiv_eq_ediv (Rat.num_nonneg.mpr hq) (by positivity)]

/-- A concatenation starts with its first component. -/
theorem strStartsWith_append (p t : Str) : strStartsWith (p ++ t) p = true := by
  induction p with
  | nil => cases t <;> rfl
  | cons c cs ih => simp [strStartsWith, ih]

/-- The consecutive-429 counter never exceeds 5 in any reachable state. -/
theorem reachableRate_consecutive_le {s : RateState} (h : ReachableRate s) :
    s.consecutive429s ≤ 5 := by
  induction h with
  | init => decide
  | step rl h ih =>
      by_cases hpos : rl > 0
      · simp only [onBatchResult, if_pos hpos]
        omega
      · simp only [onBatchResult, if_neg hpos]
        omega

/-- The sleep interval never drops below 1.0 in any reachable state. -/
theorem reachableRate_one_le_delay {s : RateState} (h : ReachableRate s) :
    1 ≤ s.rateLimitDelay := by
  induction h with
  | init => norm_num [initRateState]
  | step rl h ih =>
      by_cases hpos : rl > 0
      · simp only [onBatchResult, if_pos hpos]
        nlinarith
      · simp only [onBatchResult, if_neg hpos]
        exact le_max_left 1 _

/-- After `n` consecutive rate-limited batches the delay is `(3/2)^n`. -/
theorem stressedState_delay (n : Nat) :
    (stressedState n).rateLimitDelay = (3 / 2 : ℚ) ^ n := by
  induction n with
  | zero => norm_num [stressedState, initRateState]
  | succ n ih => simp [stressedState, onBatchResult, ih, pow_succ]

/-- Every stressed state is reachable. -/
theorem stressedState_reachable (n : Nat) : ReachableRate (stressedState n) := by
  induction n with
  | zero => exact ReachableRate.init
  | succ n ih => exact ReachableRate.step 1 ih

/-! ## Claim C1 -/

/-- C1 counterexample: at `elapsed = 1 s`, `target_rate = 10`,
`requests_sent = 10` the sender is exactly on schedule, so the claim's
formula `max(0, floor(elapsed*rate) - sent)` requires 0 probes; the code
(`max(1, min(...))`, `real_test.py` line 107) dispatches 1. -/
theorem C1_counterexample :
    requestsNeeded 1 10 10 = 1 ∧ specRequestsDue 1 10 10 = 0 := by
  constructor
  · norm_num [requestsNeeded, pyInt]
  · norm_num [specRequestsDue]

/-- C1 amended: each tick dispatches
`max(1, min(int(elapsed*target_rate) - requests_sent, target_rate))` probes.
At least one probe is dispatched every tick — when the sent count is at or
ahead of the truncated schedule the tick dispatches exactly one probe, not
zero; when behind schedule the deficit is dispatched clamped from above by
`target_rate`; the count never exceeds `target_rate`; and for non-negative
elapsed time the Python `int()` truncation agrees with the claim's floor. -/
theorem C1_dispatch_amended (elapsed : ℚ) (rate sent : Int) (h1 : 1 ≤ rate) :
    1 ≤ requestsNeeded elapsed rate sent ∧
    requestsNeeded elapsed rate sent ≤ rate ∧
    (pyInt (elapsed * rate) ≤ sent → requestsNeeded elapsed rate sent = 1) ∧
    (sent < pyInt (elapsed * rate) →
      requestsNeeded elapsed rate sent = min (pyInt (elapsed * rate) - sent) rate) ∧
    (0 ≤ elapsed → pyInt (elapsed * rate) = ⌊elapsed * (rate : ℚ)⌋) := by
  refine ⟨?_, ?_, ?_, ?_, ?_⟩
  · exact le_max_left _ _
  · unfold requestsNeeded
    omega
  · intro h
    unfold requestsNeeded
    omega
  · intro h
    unfold requestsNeeded
    omega
  · intro h
    exact pyInt_eq_floor _ (mul_nonneg h (by exact_mod_cast le_trans zero_le_one h1))

/-- C1 witness: concrete instantiations of the amended dispatch theorem. -/
theorem C1_dispatch_amended_witness :
    requestsNeeded 1 10 10 = 1 ∧ requestsNeeded 2 10 5 = 10 := by
  constructor
  · exact (C1_dispatch_amended 1 10 10 (by norm_num)).2.2.1 (by norm_num [pyInt])
  · have h := (C1_dispatch_amended 2 10 5 (by norm_num)).2.2.2.1 (by norm_num [pyInt])
    rw [h]
    norm_num [pyInt]

/-! ## Claim C2 -/

/-- C2 counterexample: with `target_rate = 5`, a first rate-limited batch
moves the effective rate from 5 to `max(1, 5 // 2) = 2`, which is strictly
below half of 5 — the claim's "exactly half the previous tick's effective
rate" fails because the code divides with integer floor division. -/
theorem C2_counterexample :
    adjustedRate 5 initRateState = 5 ∧
    adjustedRate 5 (onBatchResult 1 initRateState) = 2 ∧
    (adjustedRate 5 (onBatchResult 1 initRateState) : ℚ) <
      (adjustedRate 5 initRateState : ℚ) / 2 := by
  have h1 : adjustedRate 5 initRateState = 5 := by decide
  have h2 : adjustedRate 5 (onBatchResult 1 initRateState) = 2 := by decide
  refine ⟨h1, h2, ?_⟩
  rw [h1, h2]
  norm_num

/-- C2 amended: on a batch with `rate_limited_count > 0` the counter becomes
`min(consecutive_429s + 1, 5)`; on a clean batch it becomes
`max(consecutive_429s - 1, 0)`; the counter stays at most 5 in every
reachable state; the effective issuance rate is
`max(1, target_rate // 2^consecutive_429s)`, so under the cap each
backpressure step floor-halves the divided rate (integer division, not exact
halving), the rate never falls below `target_rate // 32` (floor division,
with an absolute minimum of 1), and never exceeds `target_rate`. -/
theorem C2_backoff_amended :
    (∀ (rl : Nat) (s : RateState), 0 < rl →
      (onBatchResult rl s).consecutive429s = min (s.consecutive429s + 1) 5) ∧
    (∀ s : RateState, (onBatchResult 0 s).consecutive429s = s.consecutive429s - 1) ∧
    (∀ s : RateState, ReachableRate s → s.consecutive429s ≤ 5) ∧
    (∀ (rate : Nat) (s : RateState), 1 ≤ rate → ReachableRate s →
      rate / 32 ≤ adjustedRate rate s ∧ adjustedRate rate s ≤ rate) ∧
    (∀ (rate rl : Nat) (s : RateState), 0 < rl → s.consecutive429s < 5 →
      adjustedRate rate (onBatchResult rl s) =
        max 1 (rate / 2 ^ s.consecutive429s / 2)) := by
  refine ⟨?_, ?_, ?_, ?_, ?_⟩
  · intro rl s h
    simp [onBatchResult, h]
  · intro s
    simp [onBatchResult]
  · intro s h
    exact reachableRate_consecutive_le h
  · intro rate s hrate hre
    have hc := reachableRate_consecutive_le hre
    constructor
    · have hpow : (2 : ℕ) ^ s.consecutive429s ≤ 32 := by
        calc (2 : ℕ) ^ s.consecutive429s ≤ 2 ^ 5 := Nat.pow_le_pow_right (by norm_num) hc
        _ = 32 := by norm_num
      calc rate / 32 ≤ rate / 2 ^ s.consecutive429s :=
            Nat.div_le_div_left hpow (Nat.pos_pow_of_pos _ (by norm_num))
      _ ≤ adjustedRate rate s := le_max_right _ _
    · exact max_le hrate (Nat.div_le_self _ _)
  · intro rate rl s hrl hc5
    simp only [adjustedRate, onBatchResult, if_pos hrl]
    rw [show min (s.consecutive429s + 1) 5 = s.consecutive429s + 1 by omega,
      pow_succ, ← Nat.div_div_eq_div_mul]

/-- C2 witness: concrete instantiations of the amended backoff theorem. -/
theorem C2_backoff_amended_witness :
    (onBatchResult 3 initRateState).consecutive429s = 1 ∧
    (5 / 32 ≤ adjustedRate 5 initRateState ∧ adjustedRate 5 initRateState ≤ 5) ∧
    adjustedRate 5 (onBatchResult 3 initRateState) = max 1 (5 / 2 ^ 0 / 2) := by
  refine ⟨?_, ?_, ?_⟩
  · rw [C2_backoff_amended.1 3 initRateState (by norm_num)]
    decide
  · exact C2_backoff_amended.2.2.2.1 5 initRateState (by norm_num) ReachableRate.init
  · exact C2_backoff_amended.2.2.2.2 5 3 initRateState (by norm_num) (by decide)
/-! ## Claim C3 -/

/-- C3 counterexample: the claim's cap on the sleep interval does not exist —
for every candidate bound `B` there is a number of consecutive rate-limited
batches after which the interval (which is multiplied by 1.5 each time,
`core.py` line 224, with no cap applied) exceeds `B`. -/
theorem C3_counterexample :
    ¬ ∃ B : ℚ, ∀ n : ℕ, (stressedState n).rateLimitDelay ≤ B := by
  rintro ⟨B, hB⟩
  obtain ⟨n, hn⟩ := exists_nat_gt (2 * B)
  have hd := hB n
  rw [stressedState_delay] at hd
  have hb : (1 : ℚ) + n * (1 / 2) ≤ (3 / 2) ^ n := by
    have h := one_add_mul_le_pow (by norm_num : (-2 : ℚ) ≤ 1 / 2) n
    norm_num at h ⊢
    linarith
  linarith

/-- C3 amended: the sleep interval starts at 1.0 s; on every batch containing
a rate-limited outcome it grows by exactly ×1.5 with no upper cap (under
sustained backpressure it grows without bound); on every clean batch it
decays by ×0.8 clamped from below at 1.0 s, and it never drops below 1.0 s
in any reachable state. -/
theorem C3_delay_amended :
    initRateState.rateLimitDelay = 1 ∧
    (∀ (rl : Nat) (s : RateState), 0 < rl →
      (onBatchResult rl s).rateLimitDelay = s.rateLimitDelay * (3 / 2)) ∧
    (∀ s : RateState,
      (onBatchResult 0 s).rateLimitDelay = max 1 (s.rateLimitDelay * (4 / 5))) ∧
    (∀ s : RateState, ReachableRate s → 1 ≤ s.rateLimitDelay) := by
  refine ⟨rfl, ?_, ?_, ?_⟩
  · intro rl s h
    simp [onBatchResult, h]
  · intro s
    simp [onBatchResult]
  · intro s h
    exact reachableRate_one_le_delay h

/-- C3 witness: concrete instantiations of the amended delay theorem. -/
theorem C3_delay_amended_witness :
    (onBatchResult 2 initRateState).rateLimitDelay = 3 / 2 ∧
    1 ≤ (stressedState 4).rateLimitDelay := by
  constructor
  · rw [C3_delay_amended.2.1 2 initRateState (by norm_num)]
    norm_num [initRateState]
  · exact C3_delay_amended.2.2.2 _ (stressedState_reachable 4)

/-! ## Claim C4 -/

/-- Invariant step for `RealLoadTest._send_request`. -/
theorem sendRequest_inv (ev : ProbeEvent) (s : RealStats)
    (h : s.successCount ≤ s.requestsSent) :
    (sendRequest ev s).successCount ≤ (sendRequest ev s).requestsSent := by
  cases ev with
  | response status ht bt =>
      simp only [sendRequest]
      split_ifs <;> omega
  | transportError msg t =>
      simpa [sendRequest] using h

/-- Invariant step for `LoadTester._send_http_request`. -/
theorem sendHttpRequest_inv (ev : ProbeEvent) (s : CoreStats)
    (h : s.successCount ≤ s.requestsSent) :
    (sendHttpRequest ev s).1.successCount ≤ (sendHttpRequest ev s).1.requestsSent := by
  cases ev with
  | response status ht bt =>
      simp only [sendHttpRequest]
      split_ifs <;> omega
  | transportError msg t =>
      simpa [sendHttpRequest] using Nat.le_succ_of_le h

/-- C4: each record operation of both engines leaves `requests_sent`,
`success_count` and `error_count` non-decreasing (so over any run the
counters are non-decreasing), and preserves `success_count ≤ requests_sent`;
starting from fresh stats, `success_count ≤ requests_sent` holds after any
sequence of record operations. -/
theorem C4_counters_monotone :
    (∀ (ev : ProbeEvent) (s : RealStats),
      s.requestsSent ≤ (sendRequest ev s).requestsSent ∧
      s.successCount ≤ (sendRequest ev s).successCount ∧
      s.errorCount ≤ (sendRequest ev s).errorCount ∧
      (s.successCount ≤ s.requestsSent →
        (sendRequest ev s).successCount ≤ (sendRequest ev s).requestsSent)) ∧
    (∀ (ev : ProbeEvent) (s : CoreStats),
      s.requestsSent ≤ (sendHttpRequest ev s).1.requestsSent ∧
      s.successCount ≤ (sendHttpRequest ev s).1.successCount ∧
      s.errorsCount ≤ (sendHttpRequest ev s).1.errorsCount ∧
      (s.successCount ≤ s.requestsSent →
        (sendHttpRequest ev s).1.successCount ≤ (sendHttpRequest ev s).1.requestsSent)) ∧
    (∀ evs : List ProbeEvent,
      (recordAllReal evs initRealStats).successCount ≤
        (recordAllReal evs initRealStats).requestsSent ∧
      (recordAllCore evs initCoreStats).successCount ≤
        (recordAllCore evs initCoreStats).requestsSent) := by
  refine ⟨?_, ?_, ?_⟩
  · intro ev s
    refine ⟨?_, ?_, ?_, sendRequest_inv ev s⟩ <;>
      cases ev <;> simp only [sendRequest] <;>
      first
      | (split_ifs <;> omega)
      | omega
  · intro ev s
    refine ⟨?_, ?_, ?_, sendHttpRequest_inv ev s⟩ <;>
      cases ev <;> simp only [sendHttpRequest] <;>
      first
      | (split_ifs <;> omega)
      | omega
  · intro evs
    constructor
    · have key : ∀ (l : List ProbeEvent) (s : RealStats),
          s.successCount ≤ s.requestsSent →
          (recordAllReal l s).successCount ≤ (recordAllReal l s).requestsSent := by
        intro l
        induction l with
        | nil => intro s h; simpa [recordAllReal] using h
        | cons e es ih =>
            intro s h
            simpa [recordAllReal] using ih (sendRequest e s) (sendRequest_inv e s h)
      exact key evs initRealStats (by decide)
    · have key : ∀ (l : List ProbeEvent) (s : CoreStats),
          s.successCount ≤ s.requestsSent →
          (recordAllCore l s).successCount ≤ (recordAllCore l s).requestsSent := by
        intro l
        induction l with
        | nil => intro s h; simpa [recordAllCore] using h
        | cons e es ih =>
            intro s h
            simpa [recordAllCore] using
              ih (sendHttpRequest e s).1 (sendHttpRequest_inv e s h)
      exact key evs initCoreStats (by decide)

/-- C4 witness: a concrete instantiation of the monotonicity theorem. -/
theorem C4_counters_monotone_witness :
    (sendRequest (.response 200 1 2) initRealStats).successCount ≤
      (sendRequest (.response 200 1 2) initRealStats).requestsSent :=
  (C4_counters_monotone.1 (.response 200 1 2) initRealStats).2.2.2 (by decide)
/-! ## Claim C5 -/

/-- C5: constructing a `TestConfig` with `port=0`, `port=70000`, `duration=0`,
`rate=-5` or `protocol="ftp"` raises a `ValueError` inside `__post_init__`,
before any run starts; construction succeeds for every input satisfying the
validation checks. -/
theorem C5_config_validation :
    (∀ c : RawConfig,
      c.port = 0 ∨ c.port = 70000 ∨ c.duration = 0 ∨ c.rate = -5 ∨
        c.protocol = "ftp".toList →
      (postInit c).isOk = false) ∧
    (∀ c : RawConfig, validRaw c → (postInit c).isOk = true) := by
  constructor
  · intro c hc
    unfold postInit
    split_ifs with h1 h2 h3 h4 h5
    · rfl
    · rfl
    · rfl
    · rfl
    · exfalso
      rcases hc with h | h | h | h | h
      · rw [h] at h3
        simp only [effectivePort] at h3
        split_ifs at h3 with hq
        · exact absurd hq.1 (by decide)
        · omega
      · rw [h] at h3
        simp only [effectivePort] at h3
        split_ifs at h3 with hq
        · exact absurd hq.1 (by decide)
        · omega
      · omega
      · omega
      · rw [h] at h2
        exact h2 (by decide)
    · rfl
  · intro c hv
    obtain ⟨ht, hp, hlo, hhi, hd, hr⟩ := hv
    unfold postInit
    split_ifs with h1 h2 h3 h4 h5
    · exact absurd h1 ht
    · rw [hp] at h2
      exact absurd h2 (by decide)
    · omega
    · omega
    · rfl
    · exact absurd ⟨hlo, hhi⟩ h3

/-- C5 witness: concrete instantiations of the validation theorem. -/
theorem C5_config_validation_witness :
    (postInit ⟨"example.com".toList, 0, "http".toList, 10, 5⟩).isOk = false ∧
    (postInit ⟨"example.com".toList, 8080, "http".toList, 10, 5⟩).isOk = true :=
  ⟨C5_config_validation.1 _ (Or.inl rfl), C5_config_validation.2 _ (by decide)⟩

/-! ## Claim C6 -/

/-- C6: for every HTTP(S) probe of `LoadTester._send_http_request`: the
recorded elapsed time is the wall-clock time after the response body is fully
read (`bodyTime`, reflecting the `await response.read()` before the timing at
lines 98-99), not the header-arrival time; a response with status < 400
increments both `requests_sent` and `success_count`; a 4xx/5xx response
increments `requests_sent` but not `success_count`; and a transport-level
exception yields a `(None, elapsed)` outcome with the error description
logged, still incrementing `requests_sent`, instead of propagating. -/
theorem C6_http_probe :
    (∀ (status : Nat) (ht bt : ℚ) (s : CoreStats),
      (sendHttpRequest (.response status ht bt) s).2.elapsed = bt ∧
      (sendHttpRequest (.response status ht bt) s).1.requestsSent =
        s.requestsSent + 1 ∧
      (status < 400 →
        (sendHttpRequest (.response status ht bt) s).1.successCount =
          s.successCount + 1) ∧
      (400 ≤ status →
        (sendHttpRequest (.response status ht bt) s).1.successCount =
          s.successCount)) ∧
    (∀ (msg : Str) (t : ℚ) (s : CoreStats),
      (sendHttpRequest (.transportError msg t) s).2.status = none ∧
      (sendHttpRequest (.transportError msg t) s).1.requestsSent =
        s.requestsSent + 1 ∧
      (sendHttpRequest (.transportError msg t) s).1.successCount =
        s.successCount ∧
      (sendHttpRequest (.transportError msg t) s).1.errorsCount =
        s.errorsCount + 1 ∧
      ("Request error: ".toList ++ msg) ∈
        (sendHttpRequest (.transportError msg t) s).1.errorLog) := by
  constructor
  · intro status ht bt s
    refine ⟨rfl, rfl, ?_, ?_⟩
    · intro h
      simp [sendHttpRequest, h]
    · intro h
      simp [sendHttpRequest, Nat.not_lt.mpr h]
  · intro msg t s
    exact ⟨rfl, rfl, rfl, rfl, List.mem_cons_self _ _⟩

/-- C6 witness: a 200 response and a failed probe at concrete inputs. -/
theorem C6_http_probe_witness :
    (sendHttpRequest (.response 200 1 2) initCoreStats).1.successCount = 1 ∧
    (sendHttpRequest (.response 503 1 2) initCoreStats).1.successCount = 0 :=
  ⟨(C6_http_probe.1 200 1 2 initCoreStats).2.2.1 (by decide),
   (C6_http_probe.1 503 1 2 initCoreStats).2.2.2 (by decide)⟩
/-! ## Claim C7 -/

/-- C7 counterexample: in `RealLoadTest.start` the callback invocation at
line 81 is not guarded at the call site; with a callback that raises on the
first tick of a three-tick run, the loop executes only that one tick and the
run ends through the run-level `except` — the scheduling loop does not
continue and the run is aborted by the callback failure. -/
theorem C7_counterexample :
    (realStart true [.tickCbRaises [], .tick [], .tick []]).runEnd =
      .stoppedByError ∧
    (realStart true [.tickCbRaises [], .tick [], .tick []]).ticksExecuted = 1 :=
  ⟨rfl, rfl⟩

/-- C7 amended: in `LoadTester._send_http_request` (`core.py` lines 116-130)
a raising observer callback is caught at the call site — the error is logged
as a `Callback error`, the probe's return value is unchanged and control
continues. In `RealLoadTest.start` (`real_test.py` line 81) the callback call
is not guarded at the call site: when a callback is registered and raises,
the exception propagates to the run-level handler and ends the scheduling
loop early, though the `finally` block still emits the single final
snapshot. -/
theorem C7_callback_amended :
    (∀ (ev : ProbeEvent) (msg : Str) (s : CoreStats),
      (sendHttpRequestCb ev (.raises msg) s).2 = (sendHttpRequest ev s).2 ∧
      (sendHttpRequestCb ev (.raises msg) s).1.errorsCount =
        (sendHttpRequest ev s).1.errorsCount + 1 ∧
      ("Callback error: ".toList ++ msg) ∈
        (sendHttpRequestCb ev (.raises msg) s).1.errorLog ∧
      (sendHttpRequestCb ev (.raises msg) s).1.requestsSent =
        (sendHttpRequest ev s).1.requestsSent) ∧
    (∀ (batch : List ProbeEvent) (rest : List TickBehavior) (s : RealStats)
        (n : Nat),
      realStartLoop true (.tickCbRaises batch :: rest) s n =
        (recordAllReal batch s, n + 1, .stoppedByError)) ∧
    (∀ ticks : List TickBehavior, (realStart true ticks).finalEmissions = [100]) := by
  refine ⟨?_, ?_, ?_⟩
  · intro ev msg s
    exact ⟨rfl, rfl, List.mem_cons_self _ _, rfl⟩
  · intro batch rest s n
    rfl
  · intro ticks
    rfl

/-! ## Claim C8 -/

/-- C8: with an observer registered, every `RealLoadTest` run terminates in
one of the two terminal outcomes (loop completed, or stopped through the
run-level exception handler — including an unexpected internal error and any
number of failed probes), and the `finally` block emits exactly one final
snapshot whose `progress` is 100; and every `LoadTester.run` invokes
`generate_report()` regardless of how its loop ended. -/
theorem C8_clean_termination :
    (∀ ticks : List TickBehavior,
      ((realStart true ticks).runEnd = .completed ∨
        (realStart true ticks).runEnd = .stoppedByError) ∧
      (realStart true ticks).finalEmissions = [100]) ∧
    (∀ (cfgRate : Nat) (ticks : List CoreTickBehavior),
      (coreRun cfgRate ticks).reportGenerated = true) := by
  constructor
  · intro ticks
    constructor
    · cases h : (realStart true ticks).runEnd
      · exact Or.inl rfl
      · exact Or.inr rfl
    · rfl
  · intro cfgRate ticks
    rfl

/-! ## Claim C9 -/

/-- C9: constructing with protocol HTTPS and port 80 (and otherwise valid
fields) succeeds, and the stored port is 443 — the remap happens before the
range check; for every other (protocol, port) combination a successful
construction keeps the given port unchanged. -/
theorem C9_https_port80 :
    (∀ c : RawConfig, strUpper c.protocol = "HTTPS".toList → c.port = 80 →
      c.target ≠ [] → 0 < c.duration → 0 < c.rate →
      ∃ cfg, postInit c = .ok cfg ∧ cfg.port = 443) ∧
    (∀ (c : RawConfig) (cfg : TestConfig),
      ¬ (c.port = 80 ∧ strUpper c.protocol = "HTTPS".toList) →
      postInit c = .ok cfg → cfg.port = c.port) := by
  constructor
  · intro c hproto hport ht hd hr
    have hcontains : supportedProtocols.contains (strUpper c.protocol) = true := by
      rw [hproto]; decide
    have heff : effectivePort c.port c.protocol = 443 := by
      rw [effectivePort, if_pos ⟨hport, hproto⟩]
    unfold postInit
    rw [if_neg ht, hcontains]
    rw [heff]
    norm_num
    refine ⟨⟨normTarget c.protocol c.target, 443, c.protocol, c.duration, c.rate⟩, ?_, rfl⟩
    split_ifs with h4 h5
    · omega
    · omega
    · rfl
  · intro c cfg hnot hok
    have heff : effectivePort c.port c.protocol = c.port := by
      rw [effectivePort, if_neg hnot]
    unfold postInit at hok
    rw [heff] at hok
    split_ifs at hok
    rw [Except.ok.injEq] at hok
    rw [← hok]

/-- C9 witness: concrete instantiations of the port-remap theorem. -/
theorem C9_https_port80_witness :
    (∃ cfg, postInit ⟨"x".toList, 80, "https".toList, 10, 5⟩ = .ok cfg ∧
      cfg.port = 443) ∧
    (⟨"http://x".toList, 8080, "http".toList, 10, 5⟩ : TestConfig).port = 8080 := by
  constructor
  · exact C9_https_port80.1 ⟨"x".toList, 80, "https".toList, 10, 5⟩
      (by decide) rfl (by decide) (by decide) (by decide)
  · exact C9_https_port80.2 ⟨"x".toList, 8080, "http".toList, 10, 5⟩
      ⟨"http://x".toList, 8080, "http".toList, 10, 5⟩ (by decide) (by rfl)

/-! ## Claim C10 -/

/-- C10: for every successful construction whose normalized
(stripped, lower-cased) target does not already start with `http://` or
`https://`, the stored target is the protocol's scheme prepended to the
normalized target — for the TCP and UDP protocols that scheme is `http://`,
and since the raw-socket probes are handed `config.target` verbatim, they
receive a scheme-prefixed string as the host to connect to. -/
theorem C10_target_scheme :
    ∀ (c : RawConfig) (cfg : TestConfig), postInit c = .ok cfg →
      hasScheme (strLower (strTrim c.target)) = false →
      cfg.target = schemeFor c.protocol ++ strLower (strTrim c.target) ∧
      ((strUpper c.protocol = "TCP".toList ∨ strUpper c.protocol = "UDP".toList) →
        strStartsWith (probeHost cfg) "http://".toList = true) := by
  intro c cfg hok hsch
  have htarget : cfg.target = schemeFor c.protocol ++ strLower (strTrim c.target) := by
    unfold postInit at hok
    split_ifs at hok
    rw [Except.ok.injEq] at hok
    rw [← hok]
    show normTarget c.protocol c.target = _
    rw [normTarget]
    simp only [hsch, Bool.false_eq_true, if_false]
  refine ⟨htarget, ?_⟩
  intro hp
  have hne : strUpper c.protocol ≠ "HTTPS".toList := by
    rcases hp with h | h <;> rw [h] <;> decide
  have hfor : schemeFor c.protocol = "http://".toList := by
    rw [schemeFor, if_neg hne]
  show strStartsWith cfg.target "http://".toList = true
  rw [htarget, hfor]
  exact strStartsWith_append _ _

/-- C10 witness: a TCP config with a bare host gets an `http://` target. -/
theorem C10_target_scheme_witness :
    strStartsWith
      (probeHost ⟨"http://x".toList, 9, "tcp".toList, 10, 5⟩) "http://".toList =
      true :=
  (C10_target_scheme ⟨"x".toList, 9, "tcp".toList, 10, 5⟩
      ⟨"http://x".toList, 9, "tcp".toList, 10, 5⟩ (by rfl) (by decide)).2
    (Or.inl (by decide))

end ELTP
